import Mathlib

/-!
Verification of the project-request-limit admission engine
(package `pkg/project/admission/requestlimit`).

The repository ships the test suite `admission_test.go`; the admission
plugin itself (`admission.go`, with `readConfig`, `maxProjectsByRequester`,
`Admit`, `Validate`) and the project usage cache (`pkg/project/cache`) are
not part of the provided sources, so those operations are modelled from the
specification (`spec.md` §4.1–4.4, §6, §7), shaped by the data the test
suite exercises (`multiLevelConfig`, `emptyConfig`, `singleDefaultConfig`,
`fakeNs`, `fakeProjectCache`).
-/

namespace RequestLimit

/-- A flat string-to-string label mapping (a Go `map[string]string`),
represented as an association list; keys are unique in any map produced by
the Go runtime, and lookups take the first binding. -/
abbrev LabelMap := List (String × String)

/-- Value of a label key in a label map (`m[k]` with presence bit). -/
def lookupLabel (m : LabelMap) (k : String) : Option String :=
  match m with
  | [] => none
  | (k', v) :: rest => if k' = k then some v else lookupLabel rest k

/-- One tier of the policy document (`ProjectLimitBySelector` in the test
suite): an optional selector (a `nil` Go map is `none`) and an optional
`MaxProjects` (`*int`, non-negative after parsing; `nil` is `none`). -/
structure ProjectLimitBySelector where
  Selector : Option LabelMap
  MaxProjects : Option Nat
deriving Repr, DecidableEq

/-- The policy document (`ProjectRequestLimitConfig`): an ordered list of
tiers, order exactly as declared. -/
structure ProjectRequestLimitConfig where
  Limits : List ProjectLimitBySelector
deriving Repr, DecidableEq

/-- Modelled from the spec: selector matching (§4.2) — "a tier matches if
every key/value pair in its selector is present and equal in `userLabels`
(subset match)".  The matcher source is not under the provided sources. -/
def selectorMatches (sel : LabelMap) (userLabels : LabelMap) : Bool :=
  sel.all (fun kv => lookupLabel userLabels kv.1 == some kv.2)

/-- Modelled from the spec: a tier with a `nil`/absent selector matches any
user, exactly as an empty selector does (§3, §4.2). -/
def tierMatches (sel : Option LabelMap) (userLabels : LabelMap) : Bool :=
  selectorMatches (sel.getD []) userLabels

/-- The `(limit, hasLimit)` pair contributed by a single matched tier:
absent `MaxProjects` means unlimited (§4.2). -/
def tierLimit (l : ProjectLimitBySelector) : Nat × Bool :=
  match l.MaxProjects with
  | none => (0, false)
  | some n => (n, true)

/-- Modelled from the spec: `maxProjectsByRequester` / `resolveLimit`
(§4.2) — scan tiers in declared order, return the `maxProjects` of the
first matching tier; no match or an absent `maxProjects` yields
`hasLimit = false` (unlimited).  `admission.go` is not under the provided
sources; the algorithm follows §4.2 verbatim. -/
def maxProjectsByRequester (config : ProjectRequestLimitConfig)
    (userLabels : LabelMap) : Nat × Bool :=
  match config.Limits.find? (fun l => tierMatches l.Selector userLabels) with
  | none => (0, false)
  | some l => tierLimit l

/-- The error taxonomy of §7: a policy denial (the Forbidden error built by
`admission.NewForbidden`, carrying the requester and the exceeded limit), a
processing error (identity lookup failed), and a configuration error
(missing collaborator at startup). -/
inductive AdmissionError where
  | forbidden (user : String) (limit : Nat) : AdmissionError
  | processing (msg : String) : AdmissionError
  | configuration (msg : String) : AdmissionError
deriving Repr, DecidableEq

/-- Modelled from the spec: the Admission Decision Engine `Admit` (§4.4) —
fetch the requester's labels from the identity collaborator; on failure
surface a processing error; resolve the limit; if unlimited return allow
without consulting the usage count; otherwise allow iff the current count
is strictly below the limit, else deny with a Forbidden error naming the
requester and the limit.  `none` is the allow verdict (a `nil` Go error).
`admission.go` is not under the provided sources. -/
def decideAdmission (config : ProjectRequestLimitConfig)
    (userLookup : String → Except String LabelMap)
    (count : String → Nat) (userName : String) : Option AdmissionError :=
  match userLookup userName with
  | .error e => some (.processing e)
  | .ok userLabels =>
    match maxProjectsByRequester config userLabels with
    | (_, false) => none
    | (limit, true) =>
      if count userName < limit then none
      else some (.forbidden userName limit)

/-- Modelled from the spec: the Validator capability (§4.4 startup
contract) — the engine refuses to become operational unless both the
identity-lookup client and the project cache have been supplied; absence
is a configuration error surfaced before any request. -/
def validate (client : Option (String → Except String LabelMap))
    (cache : Option (String → Nat)) : Option AdmissionError :=
  if client.isNone then some (.configuration ("requires an Openshift client"))
  else if cache.isNone then some (.configuration ("requires a project cache"))
  else none

/-- A cached project (namespace) resource: a name and its annotations
(mirrors the `kapi.Namespace` fields used by `fakeNs` in the test suite). -/
structure CachedNamespace where
  name : String
  annotations : LabelMap
deriving Repr, DecidableEq

/-- The fixed ownership annotation key, from `fakeNs` in
`admission_test.go` (the `projectapi` constant is not under the provided
sources). -/
def ProjectRequester : String := "openshift.io/requester"

/-- Modelled from the spec: the Usage Cache read `countForRequester`
(§4.3) — the number of cached project resources whose ownership annotation
names the requester; a project missing the annotation is excluded from all
counts.  `pkg/project/cache` is not under the provided sources. -/
def countForRequester (store : List CachedNamespace) (requester : String) : Nat :=
  (store.filter
    (fun ns => lookupLabel ns.annotations ProjectRequester == some requester)).length

/-- The `fakeNs` helper of `admission_test.go`: a namespace annotated as
requested by `name` (the generated object name is irrelevant to counts). -/
def fakeNs (name : String) : CachedNamespace :=
  { name := "testns", annotations := [(ProjectRequester, name)] }

/-- One raw tier of the external policy configuration document (§6): an
optional selector and an optional declared integer, before validation. -/
structure RawTier where
  selector : Option LabelMap
  maxProjects : Option Int
deriving Repr, DecidableEq

/-- The raw external policy configuration document (§6): identification
headers plus an ordered `limits` list. -/
structure RawDocument where
  apiVersion : String
  kind : String
  limits : List RawTier
deriving Repr, DecidableEq

/-- Conversion of a single raw tier: `maxProjects`, if present, must be a
non-negative integer (§4.1); otherwise the tier is malformed. -/
def convertTier (t : RawTier) : Option ProjectLimitBySelector :=
  match t.maxProjects with
  | none => some ⟨t.selector, none⟩
  | some n => if n < 0 then none else some ⟨t.selector, some n.toNat⟩

/-- All-or-nothing conversion of the raw tier list; a malformed tier
aborts with a structured error naming its index. -/
def readTiers : Nat → List RawTier → Except (Nat × String) (List ProjectLimitBySelector)
  | _, [] => .ok []
  | i, t :: ts =>
    match convertTier t with
    | none => .error (i, "maxProjects must be a non-negative integer")
    | some l =>
      match readTiers (i + 1) ts with
      | .error e => .error e
      | .ok ls => .ok (l :: ls)

/-- Modelled from the spec: `readConfig` (§4.1, §6) — deserialize the
policy document, preserving tier order exactly; parsing is all-or-nothing
and a malformed tier yields a structured failure identifying it.
`admission.go` is not under the provided sources. -/
def readConfig (doc : RawDocument) : Except (Nat × String) ProjectRequestLimitConfig :=
  match readTiers 0 doc.limits with
  | .error e => .error e
  | .ok ls => .ok ⟨ls⟩

/-- The `multiLevelConfig` fixture of `admission_test.go`. -/
def multiLevelConfig : ProjectRequestLimitConfig :=
  ⟨[⟨some [("platinum", "yes")], none⟩,
    ⟨some [("gold", "yes")], some 10⟩,
    ⟨some [("silver", "yes")], some 3⟩,
    ⟨some [("bronze", "yes")], some 2⟩,
    ⟨some [], some 1⟩]⟩

/-- The `emptyConfig` fixture of `admission_test.go`. -/
def emptyConfig : ProjectRequestLimitConfig := ⟨[]⟩

/-- The `singleDefaultConfig` fixture of `admission_test.go`. -/
def singleDefaultConfig : ProjectRequestLimitConfig := ⟨[⟨none, some 1⟩]⟩

/-- The raw form of the first `TestReadConfig` document (five tiers,
`platinum` with no `maxProjects`, then `gold` 500, `silver` 100,
`bronze` 20, and an empty-selector catch-all with 1). -/
def rawMultiLevelDoc : RawDocument :=
  ⟨"v1", "ProjectRequestLimitConfig",
   [⟨some [("level", "platinum")], none⟩,
    ⟨some [("level", "gold")], some 500⟩,
    ⟨some [("level", "silver")], some 100⟩,
    ⟨some [("level", "bronze")], some 20⟩,
    ⟨some [], some 1⟩]⟩

/-- The parsed configuration `TestReadConfig` expects for
`rawMultiLevelDoc`. -/
def parsedMultiLevel : ProjectRequestLimitConfig :=
  ⟨[⟨some [("level", "platinum")], none⟩,
    ⟨some [("level", "gold")], some 500⟩,
    ⟨some [("level", "silver")], some 100⟩,
    ⟨some [("level", "bronze")], some 20⟩,
    ⟨some [], some 1⟩]⟩

/-- Helper: `List.find?` returns the element at the first index whose
predicate holds. -/
theorem find?_eq_get_of_first {α : Type} (p : α → Bool) (l : List α) (i : Nat)
    (hi : i < l.length) (hp : p (l.get ⟨i, hi⟩) = true)
    (hfirst : ∀ j (hj : j < i), p (l.get ⟨j, Nat.lt_trans hj hi⟩) = false) :
    l.find? p = some (l.get ⟨i, hi⟩) := by
  induction l generalizing i with
  | nil => simp at hi
  | cons a as ih =>
    cases i with
    | zero =>
      simp only [List.get] at hp
      simp [List.find?_cons_of_pos _ hp]
    | succ n =>
      have ha : p a = false := hfirst 0 (Nat.succ_pos n)
      rw [List.find?_cons_of_neg _ (by simp [ha])]
      exact ih n (by simpa using hi) (by simpa using hp)
        (fun j hj => hfirst (j + 1) (by omega))

/-- C1: when the tier at position `i` matches the user's labels and no
earlier tier does, `maxProjectsByRequester` returns exactly that tier's
`(maxProjects, hasLimit)` result — declaration order alone decides which
tier applies, never selector specificity or selector size. -/
theorem maxProjects_first_match_wins (config : ProjectRequestLimitConfig)
    (userLabels : LabelMap) (i : Nat) (hi : i < config.Limits.length)
    (hmatch : tierMatches (config.Limits.get ⟨i, hi⟩).Selector userLabels = true)
    (hfirst : ∀ j (hj : j < i),
      tierMatches (config.Limits.get ⟨j, Nat.lt_trans hj hi⟩).Selector userLabels = false) :
    maxProjectsByRequester config userLabels = tierLimit (config.Limits.get ⟨i, hi⟩) := by
  unfold maxProjectsByRequester
  rw [find?_eq_get_of_first (fun l => tierMatches l.Selector userLabels)
    config.Limits i hi hmatch hfirst]

/-- C1 witness: under `multiLevelConfig`, which lists silver (limit 3)
before bronze (limit 2), a user labelled both silver and bronze resolves
to limit 3 — the first matching tier in declared order. -/
theorem maxProjects_first_match_wins_witness :
    maxProjectsByRequester multiLevelConfig [("silver", "yes"), ("bronze", "yes")] = (3, true) := by
  have h := maxProjects_first_match_wins multiLevelConfig
    [("silver", "yes"), ("bronze", "yes")] 2 (by decide) (by decide)
    (fun j hj => by interval_cases j <;> rfl)
  exact h.trans (by decide)

/-- C2: when the matched tier has no `maxProjects` (`hasLimit = false`),
`decideAdmission` allows the request and its verdict does not depend on the usage
count at all: the count collaborator is never consulted on that path. -/
theorem unlimited_allows_without_count (config : ProjectRequestLimitConfig)
    (userLookup : String → Except String LabelMap) (userName : String)
    (userLabels : LabelMap) (hlook : userLookup userName = .ok userLabels)
    (hunlim : (maxProjectsByRequester config userLabels).2 = false) :
    ∀ count1 count2 : String → Nat,
      decideAdmission config userLookup count1 userName = none ∧
      decideAdmission config userLookup count1 userName = decideAdmission config userLookup count2 userName := by
  intro c1 c2
  rcases hres : maxProjectsByRequester config userLabels with ⟨n, b⟩
  rw [hres] at hunlim
  simp only at hunlim
  subst hunlim
  constructor <;> simp [decideAdmission, hlook, hres]

/-- C2 witness: a platinum user under `multiLevelConfig` is admitted with
5 existing projects, and the verdict is unchanged if the count reports
1000 instead — the count is irrelevant on the unlimited path. -/
theorem unlimited_allows_without_count_witness :
    decideAdmission multiLevelConfig (fun _ => .ok [("platinum", "yes")]) (fun _ => 5) "testuser" = none ∧
    decideAdmission multiLevelConfig (fun _ => .ok [("platinum", "yes")]) (fun _ => 5) "testuser" =
      decideAdmission multiLevelConfig (fun _ => .ok [("platinum", "yes")]) (fun _ => 1000) "testuser" :=
  unlimited_allows_without_count multiLevelConfig
    (fun _ => .ok [("platinum", "yes")]) "testuser" [("platinum", "yes")] rfl (by decide)
    (fun _ => 5) (fun _ => 1000)

/-- C3: when no tier of the policy document matches the user's labels —
in particular when the document has zero tiers — the effective policy is
unlimited and `decideAdmission` allows the request whatever the current count
(fail open on missing policy). -/
theorem no_matching_tier_allows (config : ProjectRequestLimitConfig)
    (userLookup : String → Except String LabelMap) (count : String → Nat)
    (userName : String) (userLabels : LabelMap)
    (hlook : userLookup userName = .ok userLabels)
    (hnone : ∀ l ∈ config.Limits, tierMatches l.Selector userLabels = false) :
    decideAdmission config userLookup count userName = none := by
  have hfind : config.Limits.find? (fun l => tierMatches l.Selector userLabels) = none := by
    rw [List.find?_eq_none]
    intro x hx
    simp [hnone x hx]
  simp [decideAdmission, hlook, maxProjectsByRequester, hfind]

/-- C3 witness: under `emptyConfig`, a user owning 2 cached projects is
admitted. -/
theorem no_matching_tier_allows_witness :
    decideAdmission emptyConfig (fun _ => .ok [("bronze", "yes")])
      (countForRequester [fakeNs ("user2"), fakeNs ("user2")]) "user2" = none :=
  no_matching_tier_allows emptyConfig (fun _ => .ok [("bronze", "yes")])
    (countForRequester [fakeNs ("user2"), fakeNs ("user2")]) "user2" [("bronze", "yes")]
    rfl (by simp [emptyConfig])

/-- Helper: a successful label lookup is preserved when further labels are
appended to the user's label map. -/
theorem lookupLabel_append_of_some (m extra : LabelMap) (k v : String)
    (h : lookupLabel m k = some v) : lookupLabel (m ++ extra) k = some v := by
  induction m with
  | nil => simp [lookupLabel] at h
  | cons a rest ih =>
    obtain ⟨k1, v1⟩ := a
    by_cases hk : k1 = k
    · simpa [lookupLabel, hk] using h
    · rw [List.cons_append]
      simp only [lookupLabel, hk, if_false] at h ⊢
      exact ih h

/-- C4: a tier matches exactly when every key/value pair of its selector
is present with an equal value in the user's labels (subset match); a
`nil` (absent) selector behaves identically to an empty one and matches
every user; and extra user labels never prevent a match. -/
theorem tierMatches_subset_semantics (sel : Option LabelMap) (userLabels : LabelMap) :
    (tierMatches sel userLabels = true ↔
      ∀ kv ∈ sel.getD [], lookupLabel userLabels kv.1 = some kv.2) ∧
    tierMatches none userLabels = tierMatches (some []) userLabels ∧
    tierMatches none userLabels = true ∧
    ∀ s extra, tierMatches (some s) userLabels = true →
      tierMatches (some s) (userLabels ++ extra) = true := by
  refine ⟨?_, rfl, rfl, ?_⟩
  · simp [tierMatches, selectorMatches, List.all_eq_true]
  · intro s extra h
    simp only [tierMatches, Option.getD, selectorMatches, List.all_eq_true] at h ⊢
    intro kv hkv
    have := h kv hkv
    rw [beq_iff_eq] at this ⊢
    exact lookupLabel_append_of_some _ _ _ _ this

/-- C4 witness: a nil-selector tier matches a user whose only label is
`unknown: yes`; under `multiLevelConfig` that user falls through to the
empty-selector catch-all (limit 1), and under `singleDefaultConfig` the
nil-selector tier limits an arbitrary user to 1. -/
theorem tierMatches_subset_semantics_witness :
    tierMatches none [("unknown", "yes")] = true ∧
    maxProjectsByRequester multiLevelConfig [("unknown", "yes")] = (1, true) ∧
    maxProjectsByRequester singleDefaultConfig [("anything", "x")] = (1, true) :=
  ⟨(tierMatches_subset_semantics none [("unknown", "yes")]).2.2.1, by decide, by decide⟩

/-- C5: when the user's resolved limit is the finite integer `N`, `decideAdmission`
allows exactly when the current count is strictly less than `N`, and a
count equal to (or exceeding) `N` is denied with a Forbidden error naming
the limit. -/
theorem finite_limit_boundary (config : ProjectRequestLimitConfig)
    (userLookup : String → Except String LabelMap) (count : String → Nat)
    (userName : String) (userLabels : LabelMap) (N : Nat)
    (hlook : userLookup userName = .ok userLabels)
    (hlim : maxProjectsByRequester config userLabels = (N, true)) :
    (decideAdmission config userLookup count userName = none ↔ count userName < N) ∧
    (N ≤ count userName →
      decideAdmission config userLookup count userName = some (.forbidden userName N)) := by
  constructor
  · constructor
    · intro h
      by_contra hc
      simp [decideAdmission, hlook, hlim, if_neg hc] at h
    · intro h
      simp [decideAdmission, hlook, hlim, if_pos h]
  · intro h
    have : ¬ count userName < N := by omega
    simp [decideAdmission, hlook, hlim, if_neg this]

/-- C5 witness: a bronze user (limit 2) with 2 projects is denied; a user
with 0 projects under the catch-all limit 1 is allowed; with 1 project
under limit 1 the user is denied. -/
theorem finite_limit_boundary_witness :
    decideAdmission multiLevelConfig (fun _ => .ok [("bronze", "yes")]) (fun _ => 2) "user2" =
      some (.forbidden ("user2") 2) ∧
    decideAdmission singleDefaultConfig (fun _ => .ok []) (fun _ => 0) "u" = none ∧
    decideAdmission singleDefaultConfig (fun _ => .ok []) (fun _ => 1) "u" =
      some (.forbidden ("u") 1) :=
  ⟨(finite_limit_boundary multiLevelConfig (fun _ => .ok [("bronze", "yes")]) (fun _ => 2)
      "user2" [("bronze", "yes")] 2 rfl (by decide)).2 (by decide),
   (finite_limit_boundary singleDefaultConfig (fun _ => .ok []) (fun _ => 0)
      "u" [] 1 rfl (by decide)).1.mpr (by decide),
   (finite_limit_boundary singleDefaultConfig (fun _ => .ok []) (fun _ => 1)
      "u" [] 1 rfl (by decide)).2 (by decide)⟩

/-- C6: a denial is the Forbidden-kind error, produced exactly when the
requester's labels resolved to a finite limit the current count has
reached, carrying the requester and the exceeded limit as its structured
reason; it is distinguishable by the caller from a processing error and
from a configuration error, and an admitted request yields no error
(`none`). -/
theorem deny_is_forbidden_and_distinguishable (config : ProjectRequestLimitConfig)
    (userLookup : String → Except String LabelMap) (count : String → Nat)
    (userName u : String) (N : Nat)
    (h : decideAdmission config userLookup count userName = some (.forbidden u N)) :
    u = userName ∧
    (∃ userLabels, userLookup userName = .ok userLabels ∧
      maxProjectsByRequester config userLabels = (N, true) ∧ N ≤ count userName) ∧
    (∀ msg, AdmissionError.forbidden u N ≠ .processing msg) ∧
    (∀ msg, AdmissionError.forbidden u N ≠ .configuration msg) ∧
    some (AdmissionError.forbidden u N) ≠ (none : Option AdmissionError) := by
  refine ⟨?_, ?_, fun msg => by simp, fun msg => by simp, by simp⟩ <;>
  · rw [decideAdmission] at h
    split at h
    · simp at h
    · rename_i labels hl
      split at h
      · simp at h
      · rename_i n hm
        split at h
        · simp at h
        · rename_i hc
          simp only [Option.some.injEq, AdmissionError.forbidden.injEq] at h
          obtain ⟨hu, hN⟩ := h
          first
          | exact hu.symm
          | exact ⟨labels, hl, by rw [hm, hN], by omega⟩

/-- C6 witness: the Forbidden denial of bronze user2 at limit 2 is
distinct from any processing error, any configuration error, and from the
no-error (allow) outcome. -/
theorem deny_is_forbidden_and_distinguishable_witness :
    AdmissionError.forbidden ("user2") 2 ≠ AdmissionError.processing ("lookup failed") ∧
    AdmissionError.forbidden ("user2") 2 ≠ AdmissionError.configuration ("no client") ∧
    some (AdmissionError.forbidden ("user2") 2) ≠ (none : Option AdmissionError) :=
  ⟨(deny_is_forbidden_and_distinguishable multiLevelConfig
      (fun _ => .ok [("bronze", "yes")]) (fun _ => 2) "user2" "user2" 2
      (by decide)).2.2.1 ("lookup failed"),
   (deny_is_forbidden_and_distinguishable multiLevelConfig
      (fun _ => .ok [("bronze", "yes")]) (fun _ => 2) "user2" "user2" 2
      (by decide)).2.2.2.1 ("no client"),
   (deny_is_forbidden_and_distinguishable multiLevelConfig
      (fun _ => .ok [("bronze", "yes")]) (fun _ => 2) "user2" "user2" 2
      (by decide)).2.2.2.2⟩

/-- C7: when the identity collaborator fails to return the requester's
labels, `decideAdmission` surfaces that as a processing error: the request is not
allowed, is distinct from any Forbidden policy denial, and the failure is
never treated as unlimited or as an empty label set — the verdict is
independent of the policy document entirely. -/
theorem lookup_failure_is_processing_error (config : ProjectRequestLimitConfig)
    (userLookup : String → Except String LabelMap) (count : String → Nat)
    (userName e : String) (h : userLookup userName = .error e) :
    decideAdmission config userLookup count userName = some (.processing e) ∧
    decideAdmission config userLookup count userName ≠ none ∧
    (∀ u N, decideAdmission config userLookup count userName ≠ some (.forbidden u N)) ∧
    (∀ config2 : ProjectRequestLimitConfig,
      decideAdmission config userLookup count userName = decideAdmission config2 userLookup count userName) := by
  have hadm : ∀ cfg : ProjectRequestLimitConfig,
      decideAdmission cfg userLookup count userName = some (.processing e) := by
    intro cfg
    rw [decideAdmission, h]
  exact ⟨hadm config, by rw [hadm config]; simp, fun u N => by rw [hadm config]; simp,
    fun config2 => (hadm config).trans (hadm config2).symm⟩

/-- C7 witness: an identity-lookup timeout is surfaced as a processing
error carrying the failure, not as an allow or a deny. -/
theorem lookup_failure_is_processing_error_witness :
    decideAdmission multiLevelConfig (fun _ => .error ("identity timeout")) (fun _ => 0) "u" =
      some (.processing ("identity timeout")) :=
  (lookup_failure_is_processing_error multiLevelConfig
    (fun _ => .error ("identity timeout")) (fun _ => 0) "u" "identity timeout" rfl).1

/-- Helper: a successfully converted tier preserves its declared selector
and `maxProjects`, and its declared integer was non-negative. -/
theorem convertTier_ok (t : RawTier) (l : ProjectLimitBySelector)
    (h : convertTier t = some l) :
    l = ⟨t.selector, t.maxProjects.map Int.toNat⟩ ∧
    ∀ n, t.maxProjects = some n → 0 ≤ n := by
  rw [convertTier] at h
  split at h
  · rename_i hmp
    simp only [Option.some.injEq] at h
    subst h
    simp [hmp]
  · rename_i n hmp
    split at h
    · simp at h
    · rename_i hn
      simp only [Option.some.injEq] at h
      subst h
      refine ⟨by simp [hmp], ?_⟩
      intro m hm
      rw [hmp] at hm
      cases hm
      omega

/-- Helper: a successful `readTiers` run converts every raw tier in order
and certifies that every declared `maxProjects` was non-negative. -/
theorem readTiers_ok_spec (i : Nat) (ts : List RawTier)
    (ls : List ProjectLimitBySelector) (h : readTiers i ts = .ok ls) :
    ls = ts.map (fun t => ⟨t.selector, t.maxProjects.map Int.toNat⟩) ∧
    ∀ t ∈ ts, ∀ n, t.maxProjects = some n → 0 ≤ n := by
  induction ts generalizing i ls with
  | nil =>
    rw [readTiers] at h
    cases h
    simp
  | cons t rest ih =>
    rw [readTiers] at h
    rcases hc : convertTier t with _ | l
    · rw [hc] at h
      exact absurd h (by simp)
    · rw [hc] at h
      rcases hr : readTiers (i + 1) rest with e | ls2
      · rw [hr] at h
        exact absurd h (by simp)
      · rw [hr] at h
        simp only [Except.ok.injEq] at h
        subst h
        obtain ⟨ih1, ih2⟩ := ih (i + 1) ls2 hr
        obtain ⟨hl1, hl2⟩ := convertTier_ok t l hc
        refine ⟨by rw [List.map_cons, ← ih1, ← hl1], ?_⟩
        intro x hx
        rcases List.mem_cons.mp hx with rfl | hx2
        · exact hl2
        · exact ih2 x hx2

/-- C8: a successful `readConfig` run preserves the document's tier list
exactly — same length, same order, each entry's selector equal to the
declared one (`none` when absent) and `MaxProjects` equal to the declared
non-negative integer (`none` when absent); a document with no limits
yields the empty config; and success certifies every declared
`maxProjects` was non-negative, so a malformed document can only yield an
error (all-or-nothing, no partial config). -/
theorem readConfig_preserves_document (doc : RawDocument)
    (cfg : ProjectRequestLimitConfig) (h : readConfig doc = .ok cfg) :
    cfg.Limits = doc.limits.map (fun t => ⟨t.selector, t.maxProjects.map Int.toNat⟩) ∧
    cfg.Limits.length = doc.limits.length ∧
    (∀ t ∈ doc.limits, ∀ n, t.maxProjects = some n → 0 ≤ n) ∧
    (doc.limits = [] → cfg = ⟨[]⟩) := by
  rw [readConfig] at h
  rcases hr : readTiers 0 doc.limits with e | ls
  · rw [hr] at h
    exact absurd h (by simp)
  · rw [hr] at h
    simp only [Except.ok.injEq] at h
    obtain ⟨h1, h2⟩ := readTiers_ok_spec 0 doc.limits ls hr
    subst h
    refine ⟨h1, by rw [h1, List.length_map], h2, ?_⟩
    intro hemp
    rw [hemp] at h1
    simp at h1
    rw [h1]

/-- C8 witness: the five-tier `TestReadConfig` document parses to the
expected config of the same length in the same order, and a document whose
tier declares a negative `maxProjects` yields a structured error naming
tier 0. -/
theorem readConfig_preserves_document_witness :
    readConfig rawMultiLevelDoc = .ok parsedMultiLevel ∧
    parsedMultiLevel.Limits.length = rawMultiLevelDoc.limits.length ∧
    readConfig ⟨"v1", "ProjectRequestLimitConfig",
      [⟨none, some (-1)⟩]⟩ =
      .error (0, "maxProjects must be a non-negative integer") :=
  ⟨rfl,
   (readConfig_preserves_document rawMultiLevelDoc parsedMultiLevel rfl).2.1,
   rfl⟩

/-- C9: a cached project that lacks the owning-requester annotation is
excluded from every requester's count — its presence leaves
`countForRequester` unchanged for every requester. -/
theorem count_excludes_unannotated (store : List CachedNamespace)
    (ns : CachedNamespace) (h : lookupLabel ns.annotations ProjectRequester = none)
    (r : String) : countForRequester (ns :: store) r = countForRequester store r := by
  rw [countForRequester, countForRequester, List.filter_cons]
  rw [show (lookupLabel ns.annotations ProjectRequester == some r) = false by
    simp [h]]
  simp

/-- C9 witness: adding an annotation-less namespace to the cache leaves
requester a's count unchanged. -/
theorem count_excludes_unannotated_witness :
    countForRequester [⟨"x", []⟩, fakeNs ("a")] "a" = countForRequester [fakeNs ("a")] "a" :=
  count_excludes_unannotated [fakeNs ("a")] ⟨"x", []⟩ rfl "a"

/-- C10: the fixed ownership annotation key is exactly
`openshift.io/requester`, and the count for requester `r` is the number of
cached projects whose annotation value equals `r`: the empty cache counts
0, each cached project contributes 1 to the count of the requester its
annotation names and 0 to every other requester's count. -/
theorem count_by_ProjectRequester (store : List CachedNamespace)
    (ns : CachedNamespace) (r r2 : String) :
    ProjectRequester = "openshift.io/requester" ∧
    countForRequester [] r = 0 ∧
    countForRequester (ns :: store) r =
      (if lookupLabel ns.annotations ProjectRequester = some r then 1 else 0) +
        countForRequester store r ∧
    countForRequester (fakeNs r2 :: store) r =
      (if r2 = r then 1 else 0) + countForRequester store r := by
  refine ⟨rfl, rfl, ?_, ?_⟩
  · rw [countForRequester, countForRequester, List.filter_cons]
    by_cases hc : lookupLabel ns.annotations ProjectRequester = some r
    · simp [hc, Nat.add_comm]
    · simp [hc]
  · rw [countForRequester, countForRequester, List.filter_cons]
    have hl : lookupLabel (fakeNs r2).annotations ProjectRequester = some r2 := by
      simp [fakeNs, lookupLabel]
    by_cases hc : r2 = r
    · subst hc
      simp [hl, Nat.add_comm]
    · simp [hl, hc]

end RequestLimit
